import Mathlib

/-!
Verification of the order_bot repository (src/bot_main.py, src/web_server.py)
against its natural-language specification.

The Python code is shallowly embedded:
* JSON values (the contents of products.json / orders.json and Python dict
  values) become the inductive `JVal`; a Python dict literal becomes an
  association list `Jobj` in insertion order.
* `dict.get(k, default)` becomes `jget` / form access becomes `fget`.
* Python's `float(x)` and `int(s)` builtins become `pyFloat` / `pyIntStr`
  (partial: `none` models a raised `ValueError`/`TypeError`).  Exponents,
  `inf`/`nan` and underscore digit separators are not modelled; no value in
  this repository uses them, and all arithmetic the report performs on the
  repository's data is exact, so ℚ stands in for Python floats.
* File I/O outcomes are made explicit parameters: `prev` is the order list
  held by orders.json before the request, `readable` says whether
  `json.load` succeeds on it, `writeOk` whether the rewrite succeeds.
* The fire-and-forget Telegram notification's outcome is the explicit
  parameter pair `botConfigured`/`sendOk`; the handlers discard it, exactly
  as the Python code swallows every notification exception.
-/

namespace OrderBot

/-- A JSON / Python value as it appears in this repository's data files. -/
inductive JVal where
  | jnull : JVal
  | jbool : Bool → JVal
  | jnum : ℚ → JVal
  | jstr : String → JVal
deriving DecidableEq

/-- A Python dict / JSON object, keys in insertion order. -/
abbrev Jobj := List (String × JVal)

/-- `d.get(k, dflt)` on a Python dict. -/
def jget (d : Jobj) (k : String) (dflt : JVal) : JVal :=
  match d.find? (fun kv => kv.1 == k) with
  | some kv => kv.2
  | none => dflt

/-- `request.form.get(k, dflt)` — Flask form fields are strings. -/
def fget (form : List (String × String)) (k dflt : String) : String :=
  match form.find? (fun kv => kv.1 == k) with
  | some kv => kv.2
  | none => dflt

/-- Python truthiness of a JSON value (used by `data.get("time") or ...`). -/
def jTruthy : JVal → Bool
  | .jnull => false
  | .jbool b => b
  | .jnum q => !(q == 0)
  | .jstr s => !(s == "")

/-- Value of a list of decimal digit characters. -/
def natOfDigits (cs : List Char) : Nat :=
  cs.foldl (fun n c => 10 * n + (c.toNat - 48)) 0

/-- Unsigned part of Python `float(string)`: digits with an optional single
    decimal point, at least one digit overall. -/
def pyFloatCore (cs : List Char) : Option ℚ :=
  let ip := cs.takeWhile Char.isDigit
  match cs.dropWhile Char.isDigit with
  | [] => if ip.isEmpty then none else some (natOfDigits ip)
  | '.' :: fp =>
      if fp.all Char.isDigit && (!ip.isEmpty || !fp.isEmpty) then
        some (mkRat (natOfDigits ip * 10 ^ fp.length + natOfDigits fp) (10 ^ fp.length))
      else none
  | _ => none

/-- Surrounding-whitespace stripping, as `float`/`int` apply to strings. -/
def pyStrip (cs : List Char) : List Char :=
  ((cs.dropWhile Char.isWhitespace).reverse.dropWhile Char.isWhitespace).reverse

/-- Python `float(string)`: strip surrounding whitespace, one optional sign,
    then an unsigned decimal literal; `none` models `ValueError`. -/
def pyFloatStr (s : String) : Option ℚ :=
  match pyStrip s.toList with
  | '-' :: rest => (pyFloatCore rest).map (fun q => -q)
  | '+' :: rest => pyFloatCore rest
  | rest => pyFloatCore rest

/-- Python `float(x)` on a JSON value: numbers pass through, booleans count
    as 0/1, strings are parsed, `None` raises (`none`). -/
def pyFloat : JVal → Option ℚ
  | .jnum q => some q
  | .jbool b => some (if b then 1 else 0)
  | .jstr s => pyFloatStr s
  | .jnull => none

/-- Python `int(string)`: strip surrounding whitespace, one optional sign,
    then a non-empty run of digits; `none` models `ValueError`. -/
def pyIntStr (s : String) : Option Int :=
  match pyStrip s.toList with
  | '-' :: rest =>
      if !rest.isEmpty && rest.all Char.isDigit then
        some (-(natOfDigits rest : Int))
      else none
  | '+' :: rest =>
      if !rest.isEmpty && rest.all Char.isDigit then
        some (natOfDigits rest : Int)
      else none
  | rest =>
      if !rest.isEmpty && rest.all Char.isDigit then
        some (natOfDigits rest : Int)
      else none

/-- Python `int(float)` truncation toward zero (used by the report reply). -/
def pyTrunc (q : ℚ) : Int :=
  if 0 ≤ q then q.floor else -((-q).floor)

/-- `ORDER_GROUP_ID = int(os.environ.get("ORDER_GROUP_ID", "--5036378981"))`
    evaluated at module import; `none` models the process dying with
    `ValueError` before anything starts. -/
def startupOrderGroupId (env : Option String) : Option Int :=
  pyIntStr (env.getD "--5036378981")

/-- The default products.json written by bot_main.py when the file is
    missing (the repository's sample catalog). -/
def sample_products : List Jobj :=
  [[("id", .jstr "p1"), ("name_uz", .jstr "Олтин Дон Пельмени с мясом 1 кг"),
    ("name_ru", .jstr "Олтин Дон Пельмени с мясом 1 кг"), ("price", .jnum 33000),
    ("block_count", .jnum 10), ("image", .jstr "p1.jpg"), ("unit", .jstr "1 кг")],
   [("id", .jstr "p2"), ("name_uz", .jstr "Олтин Дон Пельмени с мясом 0.5 кг"),
    ("name_ru", .jstr "Олтин Дон Пельmени с мясом 0.5 кг"), ("price", .jnum 18000),
    ("block_count", .jnum 20), ("image", .jstr "p2.jpg"), ("unit", .jstr "0.5 кг")],
   [("id", .jstr "p3"), ("name_uz", .jstr "Олтин Дон Пельмени с курицей 1 кг"),
    ("name_ru", .jstr "Олтин Дон Пельмени с курицей 1 кг"), ("price", .jnum 45000),
    ("block_count", .jnum 10), ("image", .jstr "p3.jpg"), ("unit", .jstr "1 кг")]]

/-- `next((x for x in products if x.get("id")==product_id), None)`. -/
def findProduct (products : List Jobj) (product_id : String) : Option Jobj :=
  products.find? (fun x => jget x "id" .jnull == .jstr product_id)

/-- The response rendered by the Flask order route. -/
inductive WebResp where
  | notFoundPage : WebResp                 -- "Mahsulot topilmadi", 404
  | orderFormPage : Jobj → WebResp         -- render_template("order.html", ...)
  | orderedPage : Jobj → WebResp           -- render_template("ordered.html", ...)
  | serverErrorPage : WebResp              -- unhandled exception → HTTP 500
deriving DecidableEq

/-- The order dict built at bot_main.py lines 165–167 from the resolved
    product and the form fields (note: it has no "id" key). -/
def botOrderRec (product : Jobj) (product_id : String)
    (form : List (String × String)) (now : String) : Jobj :=
  let lang := fget form "lang" "ru"
  [("product_id", .jstr product_id),
   ("product_name", jget product ("name_" ++ lang) (jget product "name_ru" .jnull)),
   ("price", jget product "price" .jnull),
   ("qty", .jstr (fget form "qty" "1")),
   ("name", .jstr (fget form "name" "Anonim")),
   ("phone", .jstr (fget form "phone" "")),
   ("note", .jstr (fget form "note" "")),
   ("time", .jstr now)]

/-- Observable outcome of one POST /order/{product_id} request. -/
structure PostOut where
  resp : WebResp
  file : List Jobj          -- contents of orders.json after the request
  notifyAttempted : Bool    -- the handler reached the notification step
  notifyDelivered : Bool    -- the Telegram message actually went out
deriving DecidableEq

/-- POST branch of the `order` route (bot_main.py lines 153–186).
    `prev` is the order list stored in orders.json, `readable` whether
    `json.load` succeeds on it (the `except` swallows a failure and uses
    `[]`), `writeOk` whether the `json.dump` rewrite succeeds (not guarded
    by any `try`, so failure propagates as a 500 before notification and
    before the success page). -/
def orderPost (products : List Jobj) (product_id : String)
    (form : List (String × String)) (now : String)
    (prev : List Jobj) (readable : Bool) (writeOk : Bool)
    (botConfigured : Bool) (sendOk : Bool) : PostOut :=
  match findProduct products product_id with
  | none => ⟨.notFoundPage, prev, false, false⟩
  | some product =>
      let order := botOrderRec product product_id form now
      let data := (if readable then prev else []) ++ [order]
      if writeOk then
        -- run_coroutine_threadsafe is inside try/except and the coroutine
        -- catches send errors itself, so the response ignores the outcome
        ⟨.orderedPage order, data, true, botConfigured && sendOk⟩
      else
        ⟨.serverErrorPage, prev, false, false⟩

/-- GET branch of the `order` route. -/
def orderGet (products : List Jobj) (product_id : String) : WebResp :=
  match findProduct products product_id with
  | none => .notFoundPage
  | some product => .orderFormPage product

/-! ### web_server.py: POST /api/order -/

/-- One request to POST /api/order: its JSON body, plus the two
    environment-supplied values the handler samples — the `uuid.uuid4()`
    result and `datetime.datetime.utcnow().isoformat()`. -/
structure ApiReq where
  body : Jobj
  freshId : String
  now : String
deriving DecidableEq

/-- The order dict built at web_server.py lines 21–29. -/
def apiOrderRec (r : ApiReq) : Jobj :=
  [("id", .jstr r.freshId),
   ("product", jget r.body "product" .jnull),
   ("qty", jget r.body "qty" .jnull),
   ("address", jget r.body "address" .jnull),
   ("timestamp",
     -- data.get("time") or utcnow().isoformat(): Python `or` takes the
     -- fallback whenever the left side is falsy
     let t := jget r.body "time" .jnull
     if jTruthy t then t else .jstr r.now),
   ("lang", jget r.body "lang" (.jstr "uz")),
   ("fromWebApp", jget r.body "fromWebApp" (.jbool false))]

/-- JSON response of POST /api/order. -/
inductive ApiResp where
  | ok : ApiResp                    -- {"status":"ok"}
  | err : ApiResp                   -- {"status":"error", ...}, HTTP 500
deriving DecidableEq

/-- Observable outcome of one POST /api/order request. -/
structure ApiOut where
  resp : ApiResp
  file : List Jobj
deriving DecidableEq

/-- The api_order handler (web_server.py lines 17–42).  The whole body sits
    in one try/except: a `json.load` failure (`readable = false`) surfaces
    as the 500 error response and leaves the file as it was (the load
    happens before seek/truncate). -/
def api_order (r : ApiReq) (prev : List Jobj) (readable : Bool) : ApiOut :=
  if readable then ⟨.ok, prev ++ [apiOrderRec r]⟩ else ⟨.err, prev⟩

/-- A run of successive successful POST /api/order submissions, each one
    reading the file contents the previous one left behind. -/
def apiSubmitList (reqs : List ApiReq) (prev : List Jobj) : List Jobj :=
  reqs.foldl (fun s r => (api_order r s true).file) prev

/-! ### Whole-system state for the snapshot property -/

/-- The two data files of bot_main.py: products.json (catalog) and
    orders.json (orders). -/
structure Sys where
  catalog : List Jobj
  orders : List Jobj
deriving DecidableEq

/-- A successful POST /order/{pid} submission acting on the system state. -/
def submitSys (sys : Sys) (pid : String) (form : List (String × String))
    (now : String) : Sys × WebResp :=
  let out := orderPost sys.catalog pid form now sys.orders true true true true
  (⟨sys.catalog, out.file⟩, out.resp)

/-- Overwrite the value stored under key `k` of a Python dict. -/
def assocSet (d : Jobj) (k : String) (v : JVal) : Jobj :=
  d.map (fun kv => if kv.1 == k then (k, v) else kv)

/-- Edit one field of the catalog entry whose "id" is `pid` (a later
    products.json edit); orders.json is untouched by construction, which is
    exactly how the two files relate in the source. -/
def setProductField (sys : Sys) (pid field : String) (v : JVal) : Sys :=
  ⟨sys.catalog.map
      (fun x => if jget x "id" .jnull == .jstr pid then assocSet x field v else x),
   sys.orders⟩

/-! ### bot_main.py: /report aggregation -/

/-- Both `float(d.get('qty',0))` and `float(d.get('price',0))` succeed. -/
def bothParse (d : Jobj) : Bool :=
  (pyFloat (jget d "qty" (.jnum 0))).isSome && (pyFloat (jget d "price" (.jnum 0))).isSome

/-- The parsed quantity of an order (0 when unparseable, unused then). -/
def qtyOf (d : Jobj) : ℚ :=
  (pyFloat (jget d "qty" (.jnum 0))).getD 0

/-- The parsed price of an order (0 when unparseable, unused then). -/
def priceOf (d : Jobj) : ℚ :=
  (pyFloat (jget d "price" (.jnum 0))).getD 0

/-- One iteration of the report loop (bot_main.py lines 230–237).  The body
    `q = float(qty); p = float(price); total_kg += q; total_sum += q*p`
    sits in a try whose except is `pass`, so the two sums advance exactly
    when both float() calls succeed, and otherwise the entry contributes to
    neither sum. -/
def reportStep (acc : ℚ × ℚ) (d : Jobj) : ℚ × ℚ :=
  if bothParse d then (acc.1 + qtyOf d, acc.2 + qtyOf d * priceOf d) else acc

/-- (total_kg, total_sum) after the loop. -/
def reportSums (data : List Jobj) : ℚ × ℚ :=
  data.foldl reportStep (0, 0)

/-- `summarize()` of the spec: (orderCount, totalQuantity, totalRevenue) as
    computed by cmd_report over a decoded orders list. -/
def summarize (data : List Jobj) : Nat × ℚ × ℚ :=
  (data.length, reportSums data)

/-- The reply cmd_report sends. -/
inductive ReportReply where
  | denied : ReportReply                       -- "Ruxsat yo'q."
  | report : Nat → ℚ → Int → ReportReply       -- total, total_kg, int(total_sum)
deriving DecidableEq

/-- The /report handler (bot_main.py lines 219–238).  `readRes` is the
    outcome of opening and json-decoding orders.json: `none` models a
    missing file or undecodable contents, which the except turns into
    `data = []`. -/
def cmd_report (chatId groupId : Int) (readRes : Option (List Jobj)) : ReportReply :=
  if chatId ≠ groupId then .denied
  else
    let data := readRes.getD []
    .report data.length (reportSums data).1 (pyTrunc (reportSums data).2)

/-- The stored-orders list of the spec's aggregation scenario. -/
def scenarioOrders : List Jobj :=
  [[("qty", .jnum 2), ("price", .jnum 1000)],
   [("qty", .jstr "bad"), ("price", .jnum 500)],
   [("qty", .jnum 1), ("price", .jnum 3000)]]

/-! ### Interleaved read-modify-write of orders.json

The save path of the `order` route is `data = json.load(f)` followed by
`json.dump(data + [order], f)` with no lock, while Flask serves requests on
multiple threads.  Each in-flight request is modelled as a two-step thread:
first it reads the current file into its local variable, then it writes
back its read value plus its own order.  A schedule interleaves the steps
of two such threads. -/

/-- State of two concurrent POST /order save sequences over orders.json. -/
structure RMWState where
  file : List Jobj
  reg1 : Option (List Jobj)    -- thread 1's `data` local, once read
  reg2 : Option (List Jobj)
  done1 : Bool                 -- thread 1 performed its write
  done2 : Bool
deriving DecidableEq

/-- Run one step of thread 1 (`t = true`) or thread 2 (`t = false`): a
    thread that has not read yet reads the file; one that has read (and has
    not written) writes back its read value extended with its order. -/
def rmwStep (o1 o2 : Jobj) (st : RMWState) (t : Bool) : RMWState :=
  if t then
    match st.reg1 with
    | none => ⟨st.file, some st.file, st.reg2, st.done1, st.done2⟩
    | some v =>
        if st.done1 then st
        else ⟨v ++ [o1], st.reg1, st.reg2, true, st.done2⟩
  else
    match st.reg2 with
    | none => ⟨st.file, st.reg1, some st.file, st.done1, st.done2⟩
    | some v =>
        if st.done2 then st
        else ⟨v ++ [o2], st.reg1, st.reg2, st.done1, true⟩

/-- Execute a schedule of thread steps starting from file contents `s0`. -/
def rmwRun (o1 o2 : Jobj) (sched : List Bool) (s0 : List Jobj) : RMWState :=
  sched.foldl (rmwStep o1 o2) ⟨s0, none, none, false, false⟩

/-! ### Concrete data for counterexamples and witnesses -/

/-- The first sample product (id "p1", price 33000). -/
def sampleP1 : Jobj :=
  [("id", .jstr "p1"), ("name_uz", .jstr "Олтин Дон Пельмени с мясом 1 кг"),
   ("name_ru", .jstr "Олтин Дон Пельмени с мясом 1 кг"), ("price", .jnum 33000),
   ("block_count", .jnum 10), ("image", .jstr "p1.jpg"), ("unit", .jstr "1 кг")]

/-- An order sitting in orders.json before a request under test. -/
def wPrevOrder : Jobj :=
  [("product_id", .jstr "p2"), ("product_name", .jstr "old"),
   ("price", .jnum 18000), ("qty", .jstr "2"), ("name", .jstr "B"),
   ("phone", .jstr ""), ("note", .jstr ""), ("time", .jstr "t-1")]

/-- Two concrete /api/order requests with distinct fresh ids. -/
def wReq1 : ApiReq := ⟨[("product", .jstr "plov"), ("qty", .jnum 2)], "id-a", "t1"⟩

/-- Second concrete /api/order request. -/
def wReq2 : ApiReq := ⟨[("qty", .jnum 1)], "id-b", "t2"⟩

/-- Two distinct orders for the interleaving schedule. -/
def wOrder1 : Jobj := [("qty", .jstr "1"), ("name", .jstr "K1")]

/-- Second order for the interleaving schedule. -/
def wOrder2 : Jobj := [("qty", .jstr "1"), ("name", .jstr "K2")]

/-! ### Helper lemmas -/

/-- A run of successful api_order submissions appends one record per
    request, in submission order. -/
theorem apiSubmitList_eq (reqs : List ApiReq) (prev : List Jobj) :
    apiSubmitList reqs prev = prev ++ reqs.map apiOrderRec := by
  induction reqs generalizing prev with
  | nil => simp [apiSubmitList]
  | cons r tl ih =>
      show apiSubmitList tl (api_order r prev true).file = _
      rw [ih]
      simp [api_order]

/-- The api_order record stores the sampled uuid under "id". -/
theorem jget_apiOrderRec_id (r : ApiReq) :
    jget (apiOrderRec r) "id" .jnull = .jstr r.freshId := rfl

/-- The keys of the bot-side order dict, in insertion order. -/
theorem botOrderRec_keys (product : Jobj) (pid : String)
    (form : List (String × String)) (now : String) :
    (botOrderRec product pid form now).map Prod.fst
      = ["product_id", "product_name", "price", "qty", "name", "phone", "note", "time"] := rfl

/-- The report loop computes, over the entries where both float() calls
    succeed, the sum of quantities and the sum of quantity·price. -/
theorem reportSums_spec (data : List Jobj) : ∀ a b : ℚ,
    data.foldl reportStep (a, b)
      = (a + ((data.filter bothParse).map qtyOf).sum,
         b + ((data.filter bothParse).map (fun d => qtyOf d * priceOf d)).sum) := by
  induction data with
  | nil => intro a b; simp
  | cons d tl ih =>
      intro a b
      cases hb : bothParse d with
      | true =>
          have hstep : reportStep (a, b) d = (a + qtyOf d, b + qtyOf d * priceOf d) := by
            simp [reportStep, hb]
          rw [List.foldl_cons, hstep, ih]
          simp [List.filter_cons, hb, Prod.ext_iff]
          constructor <;> ring
      | false =>
          have hstep : reportStep (a, b) d = (a, b) := by simp [reportStep, hb]
          rw [List.foldl_cons, hstep, ih]
          simp [List.filter_cons, hb]

/-! ### Claims -/

/-- C1 as stated is false on the code: a successful POST /order/p1 against
    the sample catalog stores a record that carries no "id" key at all —
    only the /api/order variant generates ids. -/
theorem C1_counterexample :
    (orderPost sample_products "p1" [("name", "Ali")] "t0" [] true true true true).resp
      = .orderedPage (botOrderRec sampleP1 "p1" [("name", "Ali")] "t0")
    ∧ (orderPost sample_products "p1" [("name", "Ali")] "t0" [] true true true true).file
      = [botOrderRec sampleP1 "p1" [("name", "Ali")] "t0"]
    ∧ "id" ∉ (botOrderRec sampleP1 "p1" [("name", "Ali")] "t0").map Prod.fst := by
  refine ⟨by decide, by decide, ?_⟩
  rw [botOrderRec_keys]
  decide

/-- C1 amended: orders stored via POST /api/order contain a freshly
    generated id, and after N successful submissions the store holds
    exactly N more orders, in submission order, with pairwise distinct ids
    as long as the uuid generator never repeats; orders stored via
    POST /order/{productId} are appended likewise but carry no id field. -/
theorem C1_amended (reqs : List ApiReq) (prev : List Jobj) (products : List Jobj)
    (pid : String) (form : List (String × String)) (now : String)
    (prevB : List Jobj) (bc sOk : Bool) (product : Jobj)
    (hids : (reqs.map ApiReq.freshId).Nodup)
    (hfound : findProduct products pid = some product) :
    apiSubmitList reqs prev = prev ++ reqs.map apiOrderRec
    ∧ (apiSubmitList reqs prev).length = prev.length + reqs.length
    ∧ (((apiSubmitList reqs prev).drop prev.length).map (fun o => jget o "id" .jnull)).Nodup
    ∧ (orderPost products pid form now prevB true true bc sOk).file
        = prevB ++ [botOrderRec product pid form now]
    ∧ "id" ∉ (botOrderRec product pid form now).map Prod.fst := by
  refine ⟨apiSubmitList_eq reqs prev, ?_, ?_, ?_, ?_⟩
  · rw [apiSubmitList_eq]; simp
  · rw [apiSubmitList_eq, List.drop_left]
    have hmap : (reqs.map apiOrderRec).map (fun o => jget o "id" .jnull)
        = (reqs.map ApiReq.freshId).map JVal.jstr := by
      simp [List.map_map, Function.comp, jget_apiOrderRec_id]
    rw [hmap]
    exact hids.map (fun a b h => JVal.jstr.inj h)
  · simp [orderPost, hfound]
  · rw [botOrderRec_keys]; decide

/-- Witness for C1_amended at two concrete /api/order requests with
    distinct fresh ids, and a concrete POST /order/p1 submission. -/
theorem C1_witness :
    (([wReq1, wReq2].map ApiReq.freshId).Nodup
      ∧ findProduct sample_products "p1" = some sampleP1)
    ∧ (apiSubmitList [wReq1, wReq2] [] = [] ++ [wReq1, wReq2].map apiOrderRec
       ∧ (apiSubmitList [wReq1, wReq2] []).length
           = List.length ([] : List Jobj) + [wReq1, wReq2].length
       ∧ (((apiSubmitList [wReq1, wReq2] []).drop
             (List.length ([] : List Jobj))).map (fun o => jget o "id" .jnull)).Nodup
       ∧ (orderPost sample_products "p1" [] "t0" [] true true true true).file
           = [] ++ [botOrderRec sampleP1 "p1" [] "t0"]
       ∧ "id" ∉ (botOrderRec sampleP1 "p1" [] "t0").map Prod.fst) :=
  ⟨⟨by decide, by decide⟩,
   C1_amended [wReq1, wReq2] [] sample_products "p1" [] "t0" [] true true sampleP1
     (by decide) (by decide)⟩

/-- C2 as stated is false on the code: when orders.json holds an order but
    json.load fails on it, the handler still renders the success page and
    proceeds to notification, and the rewritten file holds only the new
    order — the previously stored one is not in front of it. -/
theorem C2_counterexample :
    (orderPost sample_products "p1" [] "t0" [wPrevOrder] false true true true).resp
      = .orderedPage (botOrderRec sampleP1 "p1" [] "t0")
    ∧ (orderPost sample_products "p1" [] "t0" [wPrevOrder] false true true true).notifyAttempted
      = true
    ∧ (orderPost sample_products "p1" [] "t0" [wPrevOrder] false true true true).file
      = [botOrderRec sampleP1 "p1" [] "t0"]
    ∧ ¬ (orderPost sample_products "p1" [] "t0" [wPrevOrder] false true true true).file
      = wPrevOrder :: [botOrderRec sampleP1 "p1" [] "t0"] := by
  decide

/-- C2 amended: only a write failure aborts the submission — the handler
    then responds with an error and does not notify; a read failure is
    swallowed: the handler treats the store as empty, reports success,
    notifies, and rewrites the file with only the new order, dropping
    whatever was stored before. -/
theorem C2_amended (products : List Jobj) (pid : String) (form : List (String × String))
    (now : String) (prev : List Jobj) (bc sOk : Bool) (product : Jobj)
    (hfound : findProduct products pid = some product) :
    (orderPost products pid form now prev true false bc sOk).resp = .serverErrorPage
    ∧ (orderPost products pid form now prev true false bc sOk).notifyAttempted = false
    ∧ (orderPost products pid form now prev false true bc sOk).resp
        = .orderedPage (botOrderRec product pid form now)
    ∧ (orderPost products pid form now prev false true bc sOk).file
        = [botOrderRec product pid form now]
    ∧ (orderPost products pid form now prev false true bc sOk).notifyAttempted = true := by
  refine ⟨?_, ?_, ?_, ?_, ?_⟩ <;> simp [orderPost, hfound]

/-- Witness for C2_amended at a concrete submission. -/
theorem C2_witness :
    findProduct sample_products "p1" = some sampleP1
    ∧ ((orderPost sample_products "p1" [] "t0" [wPrevOrder] true false true true).resp
        = .serverErrorPage
      ∧ (orderPost sample_products "p1" [] "t0" [wPrevOrder] true false true true).notifyAttempted
        = false
      ∧ (orderPost sample_products "p1" [] "t0" [wPrevOrder] false true true true).resp
        = .orderedPage (botOrderRec sampleP1 "p1" [] "t0")
      ∧ (orderPost sample_products "p1" [] "t0" [wPrevOrder] false true true true).file
        = [botOrderRec sampleP1 "p1" [] "t0"]
      ∧ (orderPost sample_products "p1" [] "t0" [wPrevOrder] false true true true).notifyAttempted
        = true) :=
  ⟨by decide,
   C2_amended sample_products "p1" [] "t0" [wPrevOrder] true true sampleP1 (by decide)⟩

/-- C3 as stated is false on the code: POSTing qty="bad" to /order/p1
    succeeds and stores the raw string "bad" as the quantity — a value
    float() cannot parse, so the stored quantity is not a positive number
    and no coercion or defaulting to 1 happened. -/
theorem C3_counterexample :
    (orderPost sample_products "p1" [("qty", "bad")] "t0" [] true true true true).file
      = [botOrderRec sampleP1 "p1" [("qty", "bad")] "t0"]
    ∧ jget (botOrderRec sampleP1 "p1" [("qty", "bad")] "t0") "qty" .jnull = .jstr "bad"
    ∧ pyFloat (jget (botOrderRec sampleP1 "p1" [("qty", "bad")] "t0") "qty" .jnull) = none := by
  decide

/-- C3 amended: the handler performs no numeric coercion on qty — the raw
    form string is stored unchanged, with the literal string "1"
    substituted only when the field is absent, so a stored order may carry
    a non-numeric quantity. -/
theorem C3_amended (products : List Jobj) (pid : String) (form : List (String × String))
    (now : String) (prev : List Jobj) (bc sOk : Bool) (product : Jobj)
    (hfound : findProduct products pid = some product) :
    (orderPost products pid form now prev true true bc sOk).file
      = prev ++ [botOrderRec product pid form now]
    ∧ jget (botOrderRec product pid form now) "qty" .jnull = .jstr (fget form "qty" "1") := by
  refine ⟨?_, rfl⟩
  simp [orderPost, hfound]

/-- Witness for C3_amended: one call with a qty field present, checked via
    the universally quantified theorem at that concrete form. -/
theorem C3_witness :
    findProduct sample_products "p1" = some sampleP1
    ∧ ((orderPost sample_products "p1" [("qty", "oops")] "t0" [] true true true true).file
        = [] ++ [botOrderRec sampleP1 "p1" [("qty", "oops")] "t0"]
      ∧ jget (botOrderRec sampleP1 "p1" [("qty", "oops")] "t0") "qty" .jnull
        = .jstr (fget [("qty", "oops")] "qty" "1")) :=
  ⟨by decide,
   C3_amended sample_products "p1" [("qty", "oops")] "t0" [] true true sampleP1 (by decide)⟩

/-- C4: summarize returns the order count, the sum of quantities over the
    orders where both quantity and price parse as numbers, and the sum of
    quantity·price over the same orders — any order with a non-numeric
    quantity or price contributes zero to both sums — and on the spec's
    scenario yields orderCount=3, totalQuantity=3, totalRevenue=5000. -/
theorem C4_confirmed (data : List Jobj) :
    (summarize data).1 = data.length
    ∧ (summarize data).2.1 = ((data.filter bothParse).map qtyOf).sum
    ∧ (summarize data).2.2 = ((data.filter bothParse).map (fun d => qtyOf d * priceOf d)).sum
    ∧ summarize scenarioOrders = (3, 3, 5000) := by
  refine ⟨rfl, ?_, ?_, ?_⟩
  · show (reportSums data).1 = _
    rw [reportSums, reportSums_spec]
    simp
  · show (reportSums data).2 = _
    rw [reportSums, reportSums_spec]
    simp
  · have b1 : bothParse [("qty", .jnum 2), ("price", .jnum 1000)] = true := by decide
    have b2 : bothParse [("qty", .jstr "bad"), ("price", .jnum 500)] = false := by decide
    have b3 : bothParse [("qty", .jnum 1), ("price", .jnum 3000)] = true := by decide
    have q1 : qtyOf [("qty", .jnum 2), ("price", .jnum 1000)] = 2 := by decide
    have p1 : priceOf [("qty", .jnum 2), ("price", .jnum 1000)] = 1000 := by decide
    have q3 : qtyOf [("qty", .jnum 1), ("price", .jnum 3000)] = 1 := by decide
    have p3 : priceOf [("qty", .jnum 1), ("price", .jnum 3000)] = 3000 := by decide
    simp [summarize, scenarioOrders, reportSums, reportStep, b1, b2, b3, q1, p1, q3, p3]
    norm_num

/-- C5: a stored order snapshots the product's price and localized name at
    submission time; editing any field of that product in the catalog
    afterwards leaves the stored orders untouched. -/
theorem C5_confirmed (sys : Sys) (pid field : String) (v : JVal)
    (form : List (String × String)) (now : String) (product : Jobj)
    (hfound : findProduct sys.catalog pid = some product) :
    (setProductField (submitSys sys pid form now).1 pid field v).orders
      = (submitSys sys pid form now).1.orders
    ∧ (submitSys sys pid form now).1.orders = sys.orders ++ [botOrderRec product pid form now]
    ∧ jget (botOrderRec product pid form now) "price" .jnull = jget product "price" .jnull
    ∧ jget (botOrderRec product pid form now) "product_name" .jnull
        = jget product ("name_" ++ fget form "lang" "ru") (jget product "name_ru" .jnull) := by
  refine ⟨rfl, ?_, rfl, rfl⟩
  simp [submitSys, orderPost, hfound]

/-- Witness for C5_confirmed: submit against the sample catalog, then raise
    p1's price to 99000. -/
theorem C5_witness :
    findProduct (Sys.mk sample_products []).catalog "p1" = some sampleP1
    ∧ ((setProductField (submitSys ⟨sample_products, []⟩ "p1" [] "t0").1 "p1" "price"
          (.jnum 99000)).orders
        = (submitSys ⟨sample_products, []⟩ "p1" [] "t0").1.orders
      ∧ (submitSys ⟨sample_products, []⟩ "p1" [] "t0").1.orders
        = [] ++ [botOrderRec sampleP1 "p1" [] "t0"]
      ∧ jget (botOrderRec sampleP1 "p1" [] "t0") "price" .jnull
        = jget sampleP1 "price" .jnull
      ∧ jget (botOrderRec sampleP1 "p1" [] "t0") "product_name" .jnull
        = jget sampleP1 ("name_" ++ fget [] "lang" "ru") (jget sampleP1 "name_ru" .jnull)) :=
  ⟨by decide,
   C5_confirmed ⟨sample_products, []⟩ "p1" "price" (.jnum 99000) [] "t0" sampleP1 (by decide)⟩

/-- C6: when no catalog entry matches the product id, GET renders the 404
    page, POST renders the 404 page, orders.json is left exactly as it
    was, and the notification step is never reached. -/
theorem C6_confirmed (products : List Jobj) (pid : String) (form : List (String × String))
    (now : String) (prev : List Jobj) (readable writeOk bc sOk : Bool)
    (hnone : findProduct products pid = none) :
    orderGet products pid = .notFoundPage
    ∧ (orderPost products pid form now prev readable writeOk bc sOk).resp = .notFoundPage
    ∧ (orderPost products pid form now prev readable writeOk bc sOk).file = prev
    ∧ (orderPost products pid form now prev readable writeOk bc sOk).notifyAttempted = false := by
  refine ⟨?_, ?_, ?_, ?_⟩ <;> simp [orderGet, orderPost, hnone]

/-- Witness for C6_confirmed at the unknown id "zz". -/
theorem C6_witness :
    findProduct sample_products "zz" = none
    ∧ (orderGet sample_products "zz" = .notFoundPage
      ∧ (orderPost sample_products "zz" [] "t0" [wPrevOrder] true true true true).resp
        = .notFoundPage
      ∧ (orderPost sample_products "zz" [] "t0" [wPrevOrder] true true true true).file
        = [wPrevOrder]
      ∧ (orderPost sample_products "zz" [] "t0" [wPrevOrder] true true true true).notifyAttempted
        = false) :=
  ⟨by decide,
   C6_confirmed sample_products "zz" [] "t0" [wPrevOrder] true true true true (by decide)⟩

/-- C7: the submission's response and the stored file are the same whatever
    the notification outcome (bot unconfigured, send failure, or both): the
    handler still renders the success page and the order is in the store. -/
theorem C7_confirmed (products : List Jobj) (pid : String) (form : List (String × String))
    (now : String) (prev : List Jobj) (readable bc sOk : Bool) (product : Jobj)
    (hfound : findProduct products pid = some product) :
    (orderPost products pid form now prev readable true bc sOk).resp
      = .orderedPage (botOrderRec product pid form now)
    ∧ (orderPost products pid form now prev readable true bc sOk).resp
      = (orderPost products pid form now prev readable true true true).resp
    ∧ (orderPost products pid form now prev readable true bc sOk).file
      = (orderPost products pid form now prev readable true true true).file
    ∧ botOrderRec product pid form now
      ∈ (orderPost products pid form now prev readable true bc sOk).file := by
  refine ⟨?_, ?_, ?_, ?_⟩ <;> simp [orderPost, hfound]

/-- Witness for C7_confirmed with the bot unconfigured and the send
    failing. -/
theorem C7_witness :
    findProduct sample_products "p1" = some sampleP1
    ∧ ((orderPost sample_products "p1" [] "t0" [wPrevOrder] true true false false).resp
        = .orderedPage (botOrderRec sampleP1 "p1" [] "t0")
      ∧ (orderPost sample_products "p1" [] "t0" [wPrevOrder] true true false false).resp
        = (orderPost sample_products "p1" [] "t0" [wPrevOrder] true true true true).resp
      ∧ (orderPost sample_products "p1" [] "t0" [wPrevOrder] true true false false).file
        = (orderPost sample_products "p1" [] "t0" [wPrevOrder] true true true true).file
      ∧ botOrderRec sampleP1 "p1" [] "t0"
        ∈ (orderPost sample_products "p1" [] "t0" [wPrevOrder] true true false false).file) :=
  ⟨by decide,
   C7_confirmed sample_products "p1" [] "t0" [wPrevOrder] true false false sampleP1 (by decide)⟩

/-- C8: the claim matches the stated intent, but the code's fallback string
    "--5036378981" (double minus) is not parseable by int(), so loading the
    module raises ValueError exactly when ORDER_GROUP_ID is absent — while
    a well-formed value such as "-5036378981" would have worked. -/
theorem C8_code_bug :
    startupOrderGroupId none = none
    ∧ pyIntStr "--5036378981" = none
    ∧ startupOrderGroupId (some "-5036378981") = some (-5036378981) := by
  decide

/-- C9: the claim states the spec's requirement, but the code has no lock:
    interleaving two submissions' read-modify-write cycles (both read
    orders.json before either writes) loses the first write — the file ends
    with 1 order instead of 2 — whereas running the same two cycles
    back-to-back stores both. -/
theorem C9_code_bug :
    (rmwRun wOrder1 wOrder2 [true, false, true, false] []).file = [wOrder2]
    ∧ (rmwRun wOrder1 wOrder2 [true, false, true, false] []).file.length = 1
    ∧ (rmwRun wOrder1 wOrder2 [true, true, false, false] []).file = [wOrder1, wOrder2] := by
  decide

/-- C10: invoked from the privileged group chat when orders.json is missing
    or undecodable, /report treats the store as empty and replies with zero
    orders, zero total quantity and zero revenue. -/
theorem C10_confirmed (g : Int) :
    cmd_report g g none = .report 0 0 0 := by
  unfold cmd_report
  rw [if_neg (fun h => h rfl)]
  decide

end OrderBot
